import Mathlib

set_option autoImplicit false

namespace PostgresAuth

/-! Shallow embedding of the token/session authentication core of the
repository: the JWT issuing/verification service
(src/auth/services/jwt/jwt.service.ts), the Redis-backed session service
(SessionService), the passport JWT strategy that acts as the
Authentication Guard (src/auth/strategies/jwt.strategy.ts), the
session validator (SessionValidatorService), the roles guard
(RolesGuard) and the login flow (src/user/users.service.ts).
Machine-level JS details are made explicit: string falsiness (undefined
or empty string), number falsiness (undefined or 0), and the behaviour
of the jsonwebtoken and ioredis libraries at the calls the code makes. -/

/-- UserRole enum from the Prisma schema; its runtime values are the
role name strings. Members: USER, ADMIN, MODERATOR, MANAGER. -/
inductive UserRole where
  | USER
  | ADMIN
  | MODERATOR
  | MANAGER
deriving DecidableEq, Repr

/-- Runtime string value of a Prisma enum member; RolesGuard compares
request.user.role (a string from the JWT payload) against these with
strict equality. -/
def UserRole.str : UserRole → String
  | .USER => "USER"
  | .ADMIN => "ADMIN"
  | .MODERATOR => "MODERATOR"
  | .MANAGER => "MANAGER"

/-- JwtPayload interface of src/auth/services/jwt/jwt.service.ts and
src/auth/strategies/jwt.strategy.ts: sub and email are required, jti,
name and role are optional strings (none models an absent field). -/
structure JwtPayload where
  sub : String
  email : String
  jti : Option String
  name : Option String
  role : Option String
deriving DecidableEq, Repr

/-- A compact signed token as produced by jsonwebtoken signAsync: the
claims, the issued-at and expiry timestamps (seconds), and the secret
the MAC was computed with. Signature verification against a secret s
succeeds exactly when the token was signed with s (ideal MAC). A
malformed or forged token string is modelled as the absence of such a
record (see jwtVerifyAsync). -/
structure SignedToken where
  payload : JwtPayload
  iat : Nat
  exp : Nat
  secret : String
deriving DecidableEq, Repr

/-- Failure kinds thrown by jsonwebtoken verify: JsonWebTokenError for a
bad signature, TokenExpiredError, and a malformed-token error. -/
inductive JwtError where
  | BadSignature
  | Expired
  | Malformed
deriving DecidableEq, Repr

/-- Model of jwtService.verifyAsync at time now with the configured
secret. Input none models a string that does not parse as a signed
token (malformed); for a parsed token the library checks the signature
first, then expiry (expired when now is at or past exp). On success the
decoded payload is returned. -/
def jwtVerifyAsync (secret : String) (now : Nat) (tok : Option SignedToken) :
    Except JwtError JwtPayload :=
  match tok with
  | none => .error .Malformed
  | some t =>
    if t.secret ≠ secret then .error .BadSignature
    else if t.exp ≤ now then .error .Expired
    else .ok t.payload

/-- JS truthiness filter for an optional string, as used by the spread
patterns in generateToken: the field is included only when the value is
defined and non-empty. -/
def optTruthy (s : Option String) : Option String :=
  match s with
  | some v => if v = "" then none else some v
  | none => none

/-- Result object of AuthJwtService.generateToken: the signed token and
the tokenId it embeds as jti. -/
structure IssuedToken where
  token : SignedToken
  tokenId : String
deriving DecidableEq, Repr

/-- AuthJwtService.generateToken (src/auth/services/jwt/jwt.service.ts):
draws a fresh tokenId (randomBytes(16).toString(hex), modelled by the
tokenIdHex argument), builds the payload with jti set to it and name and
role included only when truthy, and signs it. Signing stamps iat = now
and exp = now + expiresInSec (signOptions.expiresIn from
auth.module.ts, default 1h = 3600 s). -/
def generateToken (secret : String) (expiresInSec now : Nat) (tokenIdHex : String)
    (userId email : String) (nm rl : Option String) : IssuedToken :=
  let payload : JwtPayload :=
    { sub := userId
      email := email
      jti := some tokenIdHex
      name := optTruthy nm
      role := optTruthy rl }
  { token := { payload := payload, iat := now, exp := now + expiresInSec, secret := secret }
    tokenId := tokenIdHex }

/-- AuthJwtService.verifyToken with the TS exception channel explicit:
the outer Except is an exception escaping the method. The body awaits
verifyAsync inside try/catch and returns the payload on success and
null (none) from the catch arm, so every branch is Except.ok. -/
def verifyTokenE (secret : String) (now : Nat) (tok : Option SignedToken) :
    Except JwtError (Option JwtPayload) :=
  match jwtVerifyAsync secret now tok with
  | .ok p => .ok (some p)
  | .error _ => .ok none

/-- AuthJwtService.verifyToken as its callers see it: payload or null. -/
def verifyToken (secret : String) (now : Nat) (tok : Option SignedToken) :
    Option JwtPayload :=
  match jwtVerifyAsync secret now tok with
  | .ok p => some p
  | .error _ => none

/-- AuthJwtService.getTokenId: payload.jti || null, so an absent or
empty jti both give null. -/
def getTokenId (p : JwtPayload) : Option String :=
  match p.jti with
  | none => none
  | some j => if j = "" then none else some j

/-- One Redis value together with its remaining time to live; ttl none
means the key has no expiry (a plain SET with no EX). -/
structure RedisEntry where
  value : String
  ttl : Option Int
deriving DecidableEq, Repr

/-- The Redis keyspace, as an association list from keys to entries. -/
abbrev RedisStore := List (String × RedisEntry)

/-- Lookup of a key in the store. -/
def redisLookup (st : RedisStore) (k : String) : Option RedisEntry :=
  match st with
  | [] => none
  | (k2, e) :: rest => if k2 = k then some e else redisLookup rest k

/-- Removal of every binding for key k. -/
def redisErase (st : RedisStore) (k : String) : RedisStore :=
  match st with
  | [] => []
  | (k2, e) :: rest => if k2 = k then redisErase rest k else (k2, e) :: redisErase rest k

/-- Replacement of the binding for key k by entry e. -/
def redisInsert (st : RedisStore) (k : String) (e : RedisEntry) : RedisStore :=
  (k, e) :: redisErase st k

/-- RedisService.set (src/common/services/redis.service.ts): a truthy
ttl (defined and nonzero) issues SETEX, which stores the value with
that expiry but is an error for a negative ttl; a falsy ttl (undefined
or 0) issues a plain SET, which stores the value with no expiry. -/
def redisServiceSet (st : RedisStore) (key value : String) (ttl : Option Int) :
    Except String RedisStore :=
  match ttl with
  | some t =>
    if t ≠ 0 then
      if 0 < t then .ok (redisInsert st key { value := value, ttl := some t })
      else .error "ERR invalid expire time in setex"
    else .ok (redisInsert st key { value := value, ttl := none })
  | none => .ok (redisInsert st key { value := value, ttl := none })

/-- RedisService.del: DEL removes the key if present and returns the
number of keys removed; it is never an error. -/
def redisDel (st : RedisStore) (k : String) : RedisStore × Nat :=
  match redisLookup st k with
  | none => (st, 0)
  | some _ => (redisErase st k, 1)

/-- RedisService.exists: EXISTS returns the number of present keys
among those asked for (here 0 or 1). -/
def redisExistsN (st : RedisStore) (k : String) : Nat :=
  match redisLookup st k with
  | none => 0
  | some _ => 1

/-- RedisService.expire: EXPIRE on a missing key returns 0; on a
present key it returns 1, setting the ttl when positive and deleting
the key when the ttl is zero or negative. -/
def redisExpire (st : RedisStore) (k : String) (t : Int) : RedisStore × Nat :=
  match redisLookup st k with
  | none => (st, 0)
  | some e =>
    if 0 < t then (redisInsert st k { value := e.value, ttl := some t }, 1)
    else (redisErase st k, 1)

/-- SessionData stored for each session (SessionService). -/
structure SessionData where
  userId : String
  email : String
  createdAt : String
deriving DecidableEq, Repr

/-- JSON.stringify of a SessionData value, for brace- and quote-free
field values. -/
def sessionDataToJson (sd : SessionData) : String :=
  "\x7b\"userId\":\"" ++ sd.userId ++ "\",\"email\":\"" ++ sd.email ++
    "\",\"createdAt\":\"" ++ sd.createdAt ++ "\"\x7d"

/-- SessionService.getSessionKey: the session key prefix applied to a
tokenId. -/
def sessionKey (tokenId : String) : String :=
  "session:" ++ tokenId

/-- Default TTL computed in the SessionService constructor. The
argument models the JS expression (ttlFromConfig ? Number(ttlFromConfig)
: NaN) with none standing for a missing REDIS_TTL or one whose Number
conversion is not finite, and some n for a REDIS_TTL string that
converts to the (integer) number n. Number.isFinite keeps n as is and
replaces the non-finite case by 3600. -/
def computeDefaultTTL (parsedTtl : Option Int) : Int :=
  match parsedTtl with
  | some n => n
  | none => 3600

/-- The TTL actually passed to the store by createSession and
refreshSession: JS ttl || defaultTTL, so an undefined or zero ttl
argument falls back to the default. -/
def sessionTTLOf (ttl : Option Int) (defaultTTL : Int) : Int :=
  match ttl with
  | some t => if t ≠ 0 then t else defaultTTL
  | none => defaultTTL

/-- SessionService.createSession: serializes the session data and
stores it at the session key with TTL sessionTTLOf ttl defaultTTL via
RedisService.set. -/
def createSession (defaultTTL : Int) (st : RedisStore) (tokenId : String)
    (sd : SessionData) (ttl : Option Int) : Except String RedisStore :=
  redisServiceSet st (sessionKey tokenId) (sessionDataToJson sd)
    (some (sessionTTLOf ttl defaultTTL))

/-- SessionService.sessionExists: RedisService.exists on the session
key; the numeric result is used for truthiness by the guards. -/
def sessionExistsN (st : RedisStore) (tokenId : String) : Nat :=
  redisExistsN st (sessionKey tokenId)

/-- SessionService.refreshSession: RedisService.expire on the session
key with TTL sessionTTLOf ttl defaultTTL. -/
def refreshSession (defaultTTL : Int) (st : RedisStore) (tokenId : String)
    (ttl : Option Int) : RedisStore × Nat :=
  redisExpire st (sessionKey tokenId) (sessionTTLOf ttl defaultTTL)

/-- Modelled from the spec: SessionService in src has no delete method
(logout is not wired up); spec 4.2 specifies delete(tokenId) -> void as
idempotent, deleting the session record at the session key. Following
the other SessionService methods it is composed from getSessionKey and
the RedisService.del that does exist in src
(src/common/services/redis.service.ts). -/
def deleteSession (st : RedisStore) (tokenId : String) : RedisStore × Nat :=
  redisDel st (sessionKey tokenId)

/-- The Principal object returned by JwtStrategy.validate and attached
to request.user. -/
structure Principal where
  userId : String
  email : String
  name : Option String
  role : Option String
  tokenId : Option String
deriving DecidableEq, Repr

/-- Outcome of the Authentication Guard for one request: a Principal
attached to the request, or a 401 rejection with its message. -/
inductive AuthResult where
  | ok (principal : Principal)
  | unauthenticated (msg : String)
deriving DecidableEq, Repr

/-- JwtStrategy.validate (src/auth/strategies/jwt.strategy.ts),
instrumented with a flag recording whether the session store was
consulted. The guard reads payload.jti; a falsy value (absent or empty
string) throws Unauthorized (Token missing identifier) before any
store access; otherwise sessionExists is awaited and a falsy result (0)
throws Unauthorized (Session expired or revoked); otherwise the
Principal is built from the payload fields. -/
def jwtStrategyValidateT (st : RedisStore) (payload : JwtPayload) :
    AuthResult × Bool :=
  match payload.jti with
  | none => (.unauthenticated "Token missing identifier", false)
  | some tid =>
    if tid = "" then (.unauthenticated "Token missing identifier", false)
    else if sessionExistsN st tid = 0 then
      (.unauthenticated "Session expired or revoked", true)
    else
      (.ok { userId := payload.sub
             email := payload.email
             name := payload.name
             role := payload.role
             tokenId := payload.jti }, true)

/-- The full Authentication Guard: passport verifies the bearer token
(signature and expiry, ignoreExpiration false) with the configured
secret and rejects with a uniform 401 on any failure; on success it
calls JwtStrategy.validate on the decoded payload. The Bool records
whether the session store was consulted. -/
def authGuardT (secret : String) (now : Nat) (st : RedisStore)
    (tok : Option SignedToken) : AuthResult × Bool :=
  match jwtVerifyAsync secret now tok with
  | .error _ => (.unauthenticated "Unauthorized", false)
  | .ok payload => jwtStrategyValidateT st payload

/-- SessionValidatorService.validateTokenAndSession, instrumented with
a store-consulted flag: verifyToken first (null result throws Invalid
or expired token), then getTokenId (null throws Token missing
identifier), then sessionExists (falsy throws Session expired or
revoked), then payload.sub is returned. -/
def validateTokenAndSessionT (secret : String) (now : Nat) (st : RedisStore)
    (tok : Option SignedToken) : Except String String × Bool :=
  match verifyToken secret now tok with
  | none => (.error "Invalid or expired token", false)
  | some payload =>
    match getTokenId payload with
    | none => (.error "Token missing identifier", false)
    | some tid =>
      if sessionExistsN st tid = 0 then (.error "Session expired or revoked", true)
      else (.ok payload.sub, true)

/-- RolesGuard.canActivate (unnamed RolesGuard source): requiredRoles
is the route metadata (none when no declaration is present; an empty
array is truthy in JS and is some []). No declaration allows; a
declaration with no request.user denies; otherwise the guard allows
exactly when some required role equals the user role string. -/
def rolesGuardCanActivate (requiredRoles : Option (List UserRole))
    (user : Option Principal) : Bool :=
  match requiredRoles with
  | none => true
  | some rs =>
    match user with
    | none => false
    | some u => rs.any (fun r => decide (u.role = some r.str))

/-- A user row as read from the database by UsersService. -/
structure DbUser where
  id : String
  email : String
  name : Option String
  role : Option String
  password : String
  isActive : Bool
deriving DecidableEq, Repr

/-- The user object with the password field destructured away, as
returned by login. -/
structure PublicUser where
  id : String
  email : String
  name : Option String
  role : Option String
  isActive : Bool
deriving DecidableEq, Repr

/-- Removal of the password field from a user row. -/
def DbUser.toPublic (u : DbUser) : PublicUser :=
  { id := u.id, email := u.email, name := u.name, role := u.role, isActive := u.isActive }

/-- LoginUserDto: credentials presented to the login endpoint. -/
structure LoginDto where
  email : String
  password : String
deriving DecidableEq, Repr

/-- Shape of the successful login response in src/user/users.service.ts:
the accessToken field is assigned the entire generateToken result
object (token and tokenId), because login does not destructure it. -/
structure LoginResponse where
  user : PublicUser
  accessToken : IssuedToken
deriving DecidableEq, Repr

/-- UsersService.login (src/user/users.service.ts): resolves the user
by email (findByEmail, modelled by the db argument), rejects a missing
or inactive user or a failed password comparison (comparePassword is
the external PasswordService collaborator), then calls
generateToken(user.id, user.email) and answers with the user minus
password and accessToken set to the generateToken result. The Redis
store is threaded through unchanged: the method performs no session
write. -/
def login (db : String → Option DbUser) (comparePassword : String → String → Bool)
    (secret : String) (expiresInSec now : Nat) (tokenIdHex : String)
    (st : RedisStore) (dto : LoginDto) :
    Except String (LoginResponse × RedisStore) :=
  match db dto.email with
  | none => .error "Invalid Email or Password"
  | some user =>
    if user.isActive = false then .error "Account is Inactive"
    else if comparePassword dto.password user.password = false then
      .error "Invalid Email or Passowrd"
    else
      let issued := generateToken secret expiresInSec now tokenIdHex user.id user.email none none
      .ok ({ user := user.toPublic, accessToken := issued }, st)

/-! Theorems. -/

/-- Helper: after erasing every binding for key k, a lookup of k finds
nothing. -/
theorem redisLookup_erase_self (st : RedisStore) (k : String) :
    redisLookup (redisErase st k) k = none := by
  induction st with
  | nil => rfl
  | cons hd tl ih =>
    obtain ⟨k2, e⟩ := hd
    by_cases h : k2 = k
    · simp [redisErase, h, ih]
    · simp [redisErase, redisLookup, h, ih]

/-- C3: Session Manager delete is idempotent: deleting a tokenId with
no session record returns the store unchanged with count 0 (no error),
after a delete the session record for that tokenId is gone, and a
second delete of the same tokenId again returns its input store with
count 0, leaving no residual session record. -/
theorem deleteSession_idempotent (st : RedisStore) (tid : String) :
    (redisExistsN st (sessionKey tid) = 0 → deleteSession st tid = (st, 0))
    ∧ sessionExistsN (deleteSession st tid).1 tid = 0
    ∧ deleteSession (deleteSession st tid).1 tid = ((deleteSession st tid).1, 0) := by
  have hf : redisLookup ((deleteSession st tid).1) (sessionKey tid) = none := by
    unfold deleteSession redisDel
    cases hl : redisLookup st (sessionKey tid) with
    | none => simpa using hl
    | some e => simp [redisLookup_erase_self]
  refine ⟨?_, ?_, ?_⟩
  · intro h
    cases hl : redisLookup st (sessionKey tid) with
    | none => simp [deleteSession, redisDel, hl]
    | some e => exact absurd h (by simp [redisExistsN, hl])
  · simp [sessionExistsN, redisExistsN, hf]
  · show redisDel (deleteSession st tid).1 (sessionKey tid) = ((deleteSession st tid).1, 0)
    simp [redisDel, hf]

/-- C3 witness: deleting a session that was never created is not an
error and leaves the empty store unchanged. -/
theorem deleteSession_idempotent_witness :
    redisExistsN ([] : RedisStore) (sessionKey "t1") = 0
    ∧ deleteSession [] "t1" = ([], 0) :=
  ⟨by decide, (deleteSession_idempotent [] "t1").1 (by decide)⟩

/-- C4: a token whose expiry has passed is rejected by the verify step
regardless of the session-store state, and the session store is never
consulted: both the SessionValidatorService chain and the passport
Authentication Guard fail before the session-existence check, with the
consulted flag false for every store. -/
theorem expired_token_short_circuits_session_check (secret : String) (now : Nat)
    (st : RedisStore) (t : SignedToken) (h : t.exp ≤ now) :
    validateTokenAndSessionT secret now st (some t)
      = (.error "Invalid or expired token", false)
    ∧ authGuardT secret now st (some t) = (.unauthenticated "Unauthorized", false) := by
  have hverr : ∃ e, jwtVerifyAsync secret now (some t) = .error e := by
    by_cases hs : t.secret = secret
    · exact ⟨.Expired, by simp [jwtVerifyAsync, hs, h]⟩
    · exact ⟨.BadSignature, by simp [jwtVerifyAsync, hs]⟩
  obtain ⟨e, he⟩ := hverr
  constructor
  · unfold validateTokenAndSessionT verifyToken
    rw [he]
  · unfold authGuardT
    rw [he]

/-- Payload of the C4 witness token. -/
def w4Payload : JwtPayload :=
  { sub := "u1", email := "a@b.com", jti := some "id1", name := none, role := none }

/-- C4 witness token: well signed with secret s but expired at time 10. -/
def w4Tok : SignedToken :=
  { payload := w4Payload, iat := 0, exp := 5, secret := "s" }

/-- C4 witness store: the session record for the token does exist. -/
def w4Store : RedisStore :=
  [(sessionKey "id1", { value := "v", ttl := some 100 })]

/-- C4 witness: the expired token is rejected without consulting the
store even though its session record is present. -/
theorem expired_token_short_circuits_witness :
    w4Tok.exp ≤ 10
    ∧ validateTokenAndSessionT "s" 10 w4Store (some w4Tok)
        = (.error "Invalid or expired token", false)
    ∧ authGuardT "s" 10 w4Store (some w4Tok)
        = (.unauthenticated "Unauthorized", false) :=
  ⟨by decide,
   (expired_token_short_circuits_session_check "s" 10 w4Store w4Tok (by decide)).1,
   (expired_token_short_circuits_session_check "s" 10 w4Store w4Tok (by decide)).2⟩

/-- C5: a token whose signature verifies but whose payload lacks a
non-empty jti (absent or the empty string) is rejected by the
Authentication Guard with Unauthenticated (Token missing identifier);
no Principal is attached and the session store is not consulted. -/
theorem missing_or_empty_jti_rejected (secret : String) (now : Nat) (st : RedisStore)
    (tok : Option SignedToken) (p : JwtPayload)
    (hv : jwtVerifyAsync secret now tok = .ok p)
    (hj : p.jti = none ∨ p.jti = some "") :
    authGuardT secret now st tok = (.unauthenticated "Token missing identifier", false) := by
  have hred : authGuardT secret now st tok = jwtStrategyValidateT st p := by
    unfold authGuardT
    rw [hv]
  rw [hred]
  rcases hj with hj | hj <;> simp [jwtStrategyValidateT, hj]

/-- C5 witness payload: well formed but with no jti claim. -/
def w5Payload : JwtPayload :=
  { sub := "u1", email := "a@b.com", jti := none, name := none, role := none }

/-- C5 witness token: signed with the right secret and unexpired. -/
def w5Tok : SignedToken :=
  { payload := w5Payload, iat := 0, exp := 100, secret := "s" }

/-- C5 witness: the signature of the witness token verifies at time 10
yet the guard rejects it for the missing identifier. -/
theorem missing_or_empty_jti_rejected_witness :
    jwtVerifyAsync "s" 10 (some w5Tok) = .ok w5Payload
    ∧ (w5Payload.jti = none ∨ w5Payload.jti = some "")
    ∧ authGuardT "s" 10 [] (some w5Tok)
        = (.unauthenticated "Token missing identifier", false) :=
  ⟨rfl, Or.inl rfl,
   missing_or_empty_jti_rejected "s" 10 [] (some w5Tok) w5Payload rfl (Or.inl rfl)⟩

/-- C9: a declared but empty role array denies every request: the empty
declaration is truthy, so the guard proceeds, and membership of any
role in the empty set never holds, for anonymous requests and for
authenticated principals of any role alike. -/
theorem empty_role_requirement_denies_all (user : Option Principal) :
    rolesGuardCanActivate (some []) user = false := by
  cases user <;> rfl

/-- C6: the Authorization Guard allows any request when no Role
Requirement is declared; denies when a requirement is declared but no
Principal is on the request; otherwise allows exactly when the
Principal role string equals the string value of some declared role
(one match suffices); and a principal with no role never satisfies a
declared requirement. -/
theorem rolesGuard_characterization (rr : Option (List UserRole)) (user : Option Principal) :
    (rr = none → rolesGuardCanActivate rr user = true)
    ∧ (∀ rs, rr = some rs → user = none → rolesGuardCanActivate rr user = false)
    ∧ (∀ rs u, rr = some rs → user = some u →
        (rolesGuardCanActivate rr user = true ↔ ∃ r, r ∈ rs ∧ u.role = some r.str))
    ∧ (∀ rs u, rr = some rs → user = some u → u.role = none →
        rolesGuardCanActivate rr user = false) := by
  refine ⟨?_, ?_, ?_, ?_⟩
  · intro h
    rw [h]
    rfl
  · intro rs h hu
    rw [h, hu]
    rfl
  · intro rs u h hu
    rw [h, hu]
    simp [rolesGuardCanActivate, List.any_eq_true]
  · intro rs u h hu hr
    rw [h, hu]
    simp [rolesGuardCanActivate, hr]

/-- C6 witness principal carrying the ADMIN role string. -/
def w6Admin : Principal :=
  { userId := "u1", email := "a@b.com", name := none, role := some "ADMIN", tokenId := some "t" }

/-- C6 witness principal carrying no role. -/
def w6NoRole : Principal :=
  { userId := "u2", email := "b@b.com", name := none, role := none, tokenId := some "t2" }

/-- C6 witness: the four cases of the characterization at concrete
inputs. -/
theorem rolesGuard_characterization_witness :
    rolesGuardCanActivate none none = true
    ∧ rolesGuardCanActivate (some [UserRole.ADMIN]) none = false
    ∧ (rolesGuardCanActivate (some [UserRole.ADMIN]) (some w6Admin) = true
        ↔ ∃ r, r ∈ [UserRole.ADMIN] ∧ w6Admin.role = some r.str)
    ∧ rolesGuardCanActivate (some [UserRole.ADMIN]) (some w6NoRole) = false :=
  ⟨(rolesGuard_characterization none none).1 rfl,
   (rolesGuard_characterization (some [UserRole.ADMIN]) none).2.1 [UserRole.ADMIN] rfl rfl,
   (rolesGuard_characterization (some [UserRole.ADMIN]) (some w6Admin)).2.2.1
     [UserRole.ADMIN] w6Admin rfl rfl,
   (rolesGuard_characterization (some [UserRole.ADMIN]) (some w6NoRole)).2.2.2
     [UserRole.ADMIN] w6NoRole rfl rfl rfl⟩

/-- Helper: library verification succeeds on a token signed with the
matching secret whose expiry lies in the future. -/
theorem jwtVerifyAsync_ok (secret : String) (now : Nat) (t : SignedToken)
    (hsec : t.secret = secret) (hexp : now < t.exp) :
    jwtVerifyAsync secret now (some t) = .ok t.payload := by
  show (if t.secret ≠ secret then Except.error JwtError.BadSignature
      else if t.exp ≤ now then Except.error JwtError.Expired
      else Except.ok t.payload) = Except.ok t.payload
  rw [if_neg (by simp [hsec]), if_neg (by omega)]

/-- C8: round trip of issuance and verification: for any positive
configured expiry, verifying the token returned by generateToken
immediately after issuance (same clock instant, same secret) succeeds
and yields a payload whose jti equals the returned tokenId. -/
theorem generate_verify_round_trip (secret : String) (expSec now : Nat)
    (rand userId email : String) (nm rl : Option String) (h : 0 < expSec) :
    ∃ p : JwtPayload,
      verifyToken secret now
          (some (generateToken secret expSec now rand userId email nm rl).token) = some p
      ∧ p.jti = some (generateToken secret expSec now rand userId email nm rl).tokenId := by
  refine ⟨(generateToken secret expSec now rand userId email nm rl).token.payload, ?_, ?_⟩
  · unfold verifyToken
    rw [jwtVerifyAsync_ok secret now _ (by simp [generateToken])
      (by simp [generateToken]; omega)]
  · simp [generateToken]

/-- C8 witness: a concrete issuance with the default one hour expiry
round-trips through verify. -/
theorem generate_verify_round_trip_witness :
    0 < 3600
    ∧ ∃ p : JwtPayload,
        verifyToken "s" 0
            (some (generateToken "s" 3600 0 "aabb" "u1" "a@b.com" none none).token) = some p
        ∧ p.jti = some (generateToken "s" 3600 0 "aabb" "u1" "a@b.com" none none).tokenId :=
  ⟨by decide, generate_verify_round_trip "s" 3600 0 "aabb" "u1" "a@b.com" none none (by decide)⟩

/-- C1 counterexample payload: well signed, unexpired, but with an
empty-string jti claim. -/
def c1Payload : JwtPayload :=
  { sub := "u1", email := "a@b.com", jti := some "", name := none, role := none }

/-- C1 counterexample token signed with the configured secret. -/
def c1Tok : SignedToken :=
  { payload := c1Payload, iat := 0, exp := 100, secret := "s" }

/-- C1 counterexample store: a session record exists exactly at the
session key of the empty tokenId. -/
def c1Store : RedisStore :=
  [(sessionKey "", { value := "v", ttl := some 100 })]

/-- C1 counterexample: a request whose token signature verifies and is
unexpired, and whose jti has a session record in the store, is still
rejected by the Authentication Guard, because the guard additionally
requires the jti to be non-empty. This refutes the stated two-condition
iff at a concrete input. -/
theorem authGuard_iff_counterexample :
    jwtVerifyAsync "s" 10 (some c1Tok) = .ok c1Payload
    ∧ c1Payload.jti = some ""
    ∧ sessionExistsN c1Store "" ≠ 0
    ∧ (authGuardT "s" 10 c1Store (some c1Tok)).1
        = AuthResult.unauthenticated "Token missing identifier" :=
  ⟨rfl, rfl, by decide, rfl⟩

/-- C1 amended: the Authentication Guard attaches a Principal exactly
when the token signature verifies and it is unexpired, its payload
carries a non-empty jti, and a session record exists under that jti;
in particular every signature-valid token whose jti has no session
record is rejected. -/
theorem authGuard_accept_iff_amended (secret : String) (now : Nat) (st : RedisStore)
    (tok : Option SignedToken) :
    (∃ pr, (authGuardT secret now st tok).1 = AuthResult.ok pr)
    ↔ (∃ p j, jwtVerifyAsync secret now tok = .ok p ∧ p.jti = some j ∧ j ≠ ""
        ∧ sessionExistsN st j ≠ 0) := by
  unfold authGuardT
  cases hv : jwtVerifyAsync secret now tok with
  | error e => simp
  | ok p =>
    unfold jwtStrategyValidateT
    cases hj : p.jti with
    | none => simp [hj]
    | some tid =>
      by_cases ht : tid = ""
      · simp [hj, ht]
      · by_cases hs : sessionExistsN st tid = 0
        · simp [hj, ht, hs]
        · simp [hj, ht, hs]

/-- C7 counterexample payload carried by the expired witness token. -/
def c7Payload : JwtPayload :=
  { sub := "u9", email := "c@d.com", jti := some "zz", name := none, role := none }

/-- C7 counterexample token: correctly signed but already expired at
time 10. -/
def c7ExpiredTok : SignedToken :=
  { payload := c7Payload, iat := 0, exp := 5, secret := "k" }

/-- C7 counterexample: a malformed input and an expired input raise
distinct typed errors inside the jsonwebtoken library, yet verifyToken
returns the same undifferentiated null for both, so the failure value
handed on by verify does not distinguish BadSignature, Expired and
Malformed. -/
theorem verifyToken_failures_not_distinguished :
    jwtVerifyAsync "k" 10 none = .error .Malformed
    ∧ jwtVerifyAsync "k" 10 (some c7ExpiredTok) = .error .Expired
    ∧ JwtError.Malformed ≠ JwtError.Expired
    ∧ verifyTokenE "k" 10 none = verifyTokenE "k" 10 (some c7ExpiredTok)
    ∧ verifyTokenE "k" 10 none = .ok none :=
  ⟨rfl, rfl, by decide, rfl, rfl⟩

/-- C7 amended: for every input, verify never throws: the catch-all
arm yields a normal return on every path, the payload is returned
exactly when library verification succeeds, and every library failure,
of whatever kind, is collapsed to the single failure value null. -/
theorem verifyToken_total_amended (secret : String) (now : Nat) (tok : Option SignedToken) :
    (∃ r : Option JwtPayload, verifyTokenE secret now tok = .ok r)
    ∧ (∀ p, verifyTokenE secret now tok = .ok (some p)
        ↔ jwtVerifyAsync secret now tok = .ok p)
    ∧ (verifyTokenE secret now tok = .ok none
        ↔ ∃ e, jwtVerifyAsync secret now tok = .error e) := by
  unfold verifyTokenE
  cases hv : jwtVerifyAsync secret now tok with
  | ok p => simp
  | error e => simp

/-- Helper: a lookup right after an insert of the same key finds the
inserted entry. -/
theorem redisLookup_insert_self (st : RedisStore) (k : String) (e : RedisEntry) :
    redisLookup (redisInsert st k e) k = some e := by
  simp [redisInsert, redisLookup]

/-- C10 counterexample session data. -/
def c10Data : SessionData :=
  { userId := "u1", email := "a@b.com", createdAt := "2026-01-01" }

/-- C10 counterexample: with REDIS_TTL set to the string 0, the
constructor computes defaultTTL 0 (0 is a finite number), a
createSession call without an explicit ttl falls back to it, and
RedisService.set treats the falsy ttl 0 as absent and issues a plain
SET: the session record is stored with no expiry at all, refuting the
statement that no operation can create a never-expiring session. -/
theorem createSession_zero_ttl_counterexample :
    computeDefaultTTL (some 0) = 0
    ∧ createSession (computeDefaultTTL (some 0)) [] "t1" c10Data none
        = .ok [(sessionKey "t1", { value := sessionDataToJson c10Data, ttl := none })]
    ∧ redisLookup [(sessionKey "t1", { value := sessionDataToJson c10Data, ttl := none })]
        (sessionKey "t1") = some { value := sessionDataToJson c10Data, ttl := none } :=
  ⟨rfl, rfl, by simp [redisLookup]⟩

/-- C10 amended: a ttl argument of 0 or undefined is replaced by the
configured default (3600 when REDIS_TTL is missing or not a finite
number), and provided the effective TTL that results is positive,
every session record written by createSession and every record
refreshed by refreshSession carries exactly that finite positive TTL;
the no-never-expiring-session guarantee therefore holds only when the
configured default is positive. -/
theorem session_ttl_positive_amended (d : Int) (st : RedisStore) (tid : String)
    (sd : SessionData) (ttlArg : Option Int) (h : 0 < sessionTTLOf ttlArg d) :
    (∀ st2, createSession d st tid sd ttlArg = Except.ok st2 →
        redisLookup st2 (sessionKey tid)
          = some { value := sessionDataToJson sd, ttl := some (sessionTTLOf ttlArg d) })
    ∧ (∀ e, redisLookup st (sessionKey tid) = some e →
        redisLookup (refreshSession d st tid ttlArg).1 (sessionKey tid)
          = some { value := e.value, ttl := some (sessionTTLOf ttlArg d) }) := by
  have hne : sessionTTLOf ttlArg d ≠ 0 := by omega
  constructor
  · intro st2 hok
    simp [createSession, redisServiceSet, hne, h] at hok
    rw [← hok]
    exact redisLookup_insert_self st (sessionKey tid) _
  · intro e he
    simp [refreshSession, redisExpire, he, h, redisLookup_insert_self]

/-- C10 witness session data. -/
def w10Data : SessionData :=
  { userId := "u1", email := "a@b.com", createdAt := "2026-01-01" }

/-- C10 witness pre-existing entry for the refresh case. -/
def w10Entry : RedisEntry := { value := "v", ttl := some 5 }

/-- C10 witness store holding one session record. -/
def w10Store : RedisStore := [(sessionKey "t1", w10Entry)]

/-- C10 witness resulting store after createSession with the default
TTL 3600. -/
def w10After : RedisStore :=
  [(sessionKey "t1", { value := sessionDataToJson w10Data, ttl := some 3600 })]

/-- C10 witness: with the stock default of 3600 seconds both the
created and the refreshed record carry that TTL. -/
theorem session_ttl_positive_amended_witness :
    0 < sessionTTLOf none 3600
    ∧ redisLookup w10After (sessionKey "t1")
        = some { value := sessionDataToJson w10Data, ttl := some (sessionTTLOf none 3600) }
    ∧ redisLookup (refreshSession 3600 w10Store "t1" none).1 (sessionKey "t1")
        = some { value := w10Entry.value, ttl := some (sessionTTLOf none 3600) } :=
  ⟨by decide,
   (session_ttl_positive_amended 3600 w10Store "t1" w10Data none (by decide)).1 w10After rfl,
   (session_ttl_positive_amended 3600 w10Store "t1" w10Data none (by decide)).2 w10Entry rfl⟩

/-- C2 database user on which the buggy login flow is evaluated. -/
def bugUser : DbUser :=
  { id := "u1", email := "a@b.com", name := none, role := none,
    password := "digest", isActive := true }

/-- C2 user lookup collaborator holding exactly bugUser. -/
def bugDb : String → Option DbUser :=
  fun e => if e = "a@b.com" then some bugUser else none

/-- C2 password comparison collaborator accepting the pair pw and
digest. -/
def bugCompare : String → String → Bool :=
  fun p dg => (p == "pw") && (dg == "digest")

/-- C2 token object issued during the evaluated login. -/
def bugIssued : IssuedToken :=
  generateToken "s" 3600 0 "aabbccdd" "u1" "a@b.com" none none

/-- C2, evaluated at the failing input: a successful login returns an
accessToken field holding the entire generateToken result object, with
the token and the bare tokenId both inside it, rather than the opaque
token string alone; and the flow never calls Session Manager.create:
the store comes back unchanged and no session record exists for the
issued tokenId, so the fresh token fails every subsequent session
check. -/
theorem login_no_session_create_bug :
    login bugDb bugCompare "s" 3600 0 "aabbccdd" []
        { email := "a@b.com", password := "pw" }
      = .ok ({ user := bugUser.toPublic, accessToken := bugIssued }, [])
    ∧ bugIssued.tokenId = "aabbccdd"
    ∧ sessionExistsN [] bugIssued.tokenId = 0 :=
  ⟨rfl, rfl, rfl⟩

end PostgresAuth
